import Mathlib

set_option linter.unusedVariables false

namespace BackupApi

/-! Shallow embedding of the `db-api-rest-backup` repository
(`src/backup_api/`): data model (`models.py`), the backup execution
pipeline (`backup_manager.py`), the restore pipeline
(`restore_manager.py`), the scheduler and retention engine
(`scheduler.py`), the declarative config sync (`config.py`) and the
HTTP surfaces that the claims reference (`routers/backups.py`,
`routers/databases.py`, `routers/packages.py`).

Machine integers are modelled as `Nat`/`Int`; `datetime` values as `Int`
timestamps (in days where retention arithmetic matters, since the code
subtracts `timedelta(days=...)`); SQL `NULL`able columns as `Option`;
external child processes by their observable contract (exit code and
captured stderr), supplied through an environment record. -/

/-- `Database` row, from `models.py`, plus the provenance fields
`config_id`, `override_static_config` and `is_deleted` which
`config.py` and `routers/databases.py` read and write but whose column
declarations are not in `src/backup_api/models.py`.
Modelled from the spec: §3 gives a provenance flag distinguishing
API-managed vs config-file resources, an override flag and a
soft-delete flag; the three fields default to "API-managed, not
overridden, not deleted". -/
structure Database where
  id : String
  name : String
  engine : String
  host : String
  port : Nat
  username : String
  password : String
  database_name : String
  schedule : Option String := none
  retention_days : Option Int := none
  max_backups : Option Nat := none
  compression : String := "none"
  config_id : Option String := none
  override_static_config : Bool := false
  is_deleted : Bool := false
deriving Repr, DecidableEq

/-- `Backup` row, from `models.py`, plus `trigger_mode` and
`error_summary` which `backup_manager.py` reads and writes but whose
column declarations are not in `src/backup_api/models.py`.
Modelled from the spec: §3 gives a trigger origin
(`scheduled`/`manual`/`upload`) and a derived human-readable error
summary on the Job entity. -/
structure Backup where
  id : String
  database_id : String
  type : String
  status : String := "running"
  started_at : Int := 0
  finished_at : Option Int := none
  size_bytes : Option Nat := none
  storage_path : Option String := none
  checksum : Option String := none
  log : Option String := none
  trigger_mode : String := "scheduled"
  error_summary : Option String := none
deriving Repr, DecidableEq

/-- Modelled from the spec: the `Restore` model class is not in
`src/backup_api/models.py`; its fields follow §3's Job entity
(restore kind) and the uses in `restore_manager.py`,
`routers/backups.py` and `routers/databases.py`. -/
structure Restore where
  id : String
  database_id : String
  backup_id : Option String := none
  status : String := "running"
  finished_at : Option Int := none
  log : Option String := none
  error_summary : Option String := none
deriving Repr, DecidableEq

/-- Modelled from the spec: the `Package` model class is not in
`src/backup_api/models.py`; its fields follow §3's Package entity and
the uses in `routers/packages.py` and `scheduler.py`. -/
structure Package where
  id : String
  storage_path : String
  size_bytes : Nat
  created_at : Int := 0
deriving Repr, DecidableEq

/-! ### `utils.sanitize_filename` -/

/-- Characters replaced by a hyphen in `sanitize_filename`
(the regex class `[\s_.]`; `\s` over ASCII). -/
def isSepChar (c : Char) : Bool :=
  c = ' ' || c = '\t' || c = '\n' || c = '\r' || c = '\x0b' || c = '\x0c' || c = '_' || c = '.'

/-- Characters kept by `sanitize_filename`
(`string.ascii_letters + string.digits + '-'`). -/
def isAllowedChar (c : Char) : Bool :=
  c.isAlpha || c.isDigit || c = '-'

/-- Replace every maximal run of characters satisfying `p` by the single
character `r` (the effect of `re.sub` with a `+`-quantified class).
The Boolean argument tracks whether the previous character was in a run. -/
def collapseRuns (p : Char → Bool) (r : Char) : List Char → Bool → List Char
  | [], _ => []
  | c :: rest, inRun =>
    if p c then
      if inRun then collapseRuns p r rest true
      else r :: collapseRuns p r rest true
    else c :: collapseRuns p r rest false

/-- Python `str.strip('-')`. -/
def stripHyphens (l : List Char) : List Char :=
  ((l.dropWhile (fun c => c = '-')).reverse.dropWhile (fun c => c = '-')).reverse

/-- `utils.sanitize_filename`: lowercase, collapse separator runs to a
hyphen, drop disallowed characters, collapse hyphen runs, trim hyphens. -/
def sanitize_filename (name : String) : String :=
  let l0 := name.data.map Char.toLower
  let l1 := collapseRuns isSepChar '-' l0 false
  let l2 := l1.filter isAllowedChar
  let l3 := collapseRuns (fun c => c = '-') '-' l2 false
  String.mk (stripHyphens l3)

/-! ### `error_parser.parse_backup_error` -/

/-- Python's `pat in hay` substring test. -/
def strContainsSub (hay pat : String) : Bool :=
  decide (List.IsInfix pat.data hay.data)

/-- `error_parser.parse_backup_error`: best-effort classification of a
stderr string into a human-readable summary. -/
def parse_backup_error (stderrStr : String) (eng : String) : String :=
  let s := stderrStr.toLower
  if eng = "postgres" then
    if strContainsSub s "authentication failed" then
      "Error de Autenticación: El usuario o la contraseña son incorrectos."
    else if strContainsSub s "password authentication failed" then
      "Error de Autenticación: La contraseña proporcionada fue rechazada."
    else if strContainsSub s "does not exist" && strContainsSub s "database" then
      "Error de Base de Datos: La base de datos especificada no existe."
    else if strContainsSub s "connection refused" then
      "Error de Conexión: No se pudo conectar al servidor de la base de datos. Verifique el host y el puerto."
    else if strContainsSub s "could not translate host name" then
      "Error de Conexión: El nombre del host no se pudo resolver. Verifique la dirección del servidor."
    else if strContainsSub s "timeout expired" then
      "Error de Conexión: Se agotó el tiempo de espera al intentar conectar con el servidor."
    else if strContainsSub s "permission denied" then
      "Error de Permisos: El usuario no tiene los permisos necesarios para realizar el backup."
    else
      "Error Desconocido: El backup falló por una razón no identificada. Revise el log completo para más detalles."
  else if eng = "mongodb" then
    if strContainsSub s "authentication failed" then
      "Error de Autenticación: El usuario o la contraseña son incorrectos."
    else if strContainsSub s "could not connect to server" then
      "Error de Conexión: No se pudo conectar al servidor. Verifique la dirección y el puerto."
    else if strContainsSub s "failed to connect" then
      "Error de Conexión: Fallo al conectar con el servidor. Verifique la configuración de red."
    else
      "Error Desconocido: El backup falló por una razón no identificada. Revise el log completo para más detalles."
  else
    "Error Desconocido: El backup falló por una razón no identificada. Revise el log completo para más detalles."

/-! ### `backup_manager.run_backup` -/

/-- Observable contract of one external child process: exit code and
captured stderr. -/
structure ProcResult where
  exitCode : Int
  stderr : String
deriving Repr, DecidableEq

/-- Environment of one `run_backup` execution: the results of the
external processes, of the dump-file inspection, and of the storage
handoff, plus the two wall-clock reads the function performs. -/
structure RunEnv where
  pgDump : ProcResult
  gzipProc : ProcResult
  mongodump : ProcResult
  dumpSize : Nat
  dumpMd5 : String
  saveOk : Bool
  saveErr : String
  timestamp : String
  finishTime : Int
deriving Repr, DecidableEq

/-- Message of the `RuntimeError` raised when `pg_dump` (gzip path)
exits nonzero. -/
def pgDumpGzipFailMsg (rc : Int) (logOut : String) : String :=
  "pg_dump failed with exit code " ++ toString rc ++ ": " ++ logOut

/-- Message of the `RuntimeError` raised when the `gzip` filter exits
nonzero. -/
def gzipFailMsg (rc : Int) (logOut : String) : String :=
  "gzip failed with exit code " ++ toString rc ++ ": " ++ logOut

/-- Message of the `RuntimeError` raised when `pg_dump`
(uncompressed path) exits nonzero. -/
def pgFailMsg (rc : Int) (logOut : String) : String :=
  "Backup failed with exit code " ++ toString rc ++ ": " ++ logOut

/-- Message of the `RuntimeError` raised when `mongodump` exits nonzero. -/
def mongoFailMsg (logOut : String) : String :=
  "Backup failed: " ++ logOut

/-- Message of the `ValueError` raised on an unsupported engine. -/
def unsupportedEngineMsg (eng : String) : String :=
  "Unsupported database engine: " ++ eng

/-- The dump stage of `run_backup` (lines 57-114): returns the captured
stderr (`log_output`) on success, or the raised exception's message.
Only a nonzero exit code raises; captured stderr alone does not. -/
def dumpStage (env : RunEnv) (db : Database) : Except String String :=
  if db.engine = "postgres" then
    if db.compression = "gzip" then
      let logOut := env.pgDump.stderr ++ env.gzipProc.stderr
      if env.pgDump.exitCode ≠ 0 then
        .error (pgDumpGzipFailMsg env.pgDump.exitCode logOut)
      else if env.gzipProc.exitCode ≠ 0 then
        .error (gzipFailMsg env.gzipProc.exitCode logOut)
      else .ok logOut
    else
      let logOut := env.pgDump.stderr
      if env.pgDump.exitCode ≠ 0 then
        .error (pgFailMsg env.pgDump.exitCode logOut)
      else .ok logOut
  else if db.engine = "mongodb" then
    let logOut := env.mongodump.stderr
    if env.mongodump.exitCode ≠ 0 then
      .error (mongoFailMsg logOut)
    else .ok logOut
  else
    .error (unsupportedEngineMsg db.engine)

/-- File extension chosen by `run_backup` (lines 43-45). -/
def backupFileExt (db : Database) : String :=
  (if db.engine = "postgres" then ".sql" else ".archive")
    ++ (if db.compression = "gzip" then ".gz" else "")

/-- Backup filename (line 47). -/
def backupFilename (env : RunEnv) (db : Database) (b : Backup) : String :=
  sanitize_filename db.name ++ "_" ++ env.timestamp
    ++ (if b.trigger_mode = "manual" then "_manual" else "")
    ++ backupFileExt db

/-- Deterministic storage path (line 48, `os.path.join` on posix). -/
def backupStoragePath (env : RunEnv) (db : Database) (b : Backup) : String :=
  "backups/" ++ sanitize_filename db.name ++ "/" ++ backupFilename env db b

/-- `backup_manager.run_backup`, given the already-loaded `Backup` and
`Database` rows: yields the `Backup` row as committed by the `finally`
block. Faithful points: `size_bytes` and `checksum` are assigned
*before* `storage.save` (lines 116-122), so they survive into a failed
job when the handoff raises; `finished_at` and `status` are assigned
unconditionally in `finally` (lines 143-144); on any exception the raw
`str(e)` becomes `log` and its classification `error_summary`
(lines 131-135). -/
def runBackup (env : RunEnv) (db : Database) (b : Backup) : Backup :=
  match dumpStage env db with
  | .error e =>
      { b with log := some e,
               error_summary := some (parse_backup_error e db.engine),
               finished_at := some env.finishTime,
               status := "failed" }
  | .ok logOut =>
      let b1 := { b with size_bytes := some env.dumpSize, checksum := some env.dumpMd5 }
      if env.saveOk then
        { b1 with storage_path := some (backupStoragePath env db b),
                  log := some logOut,
                  finished_at := some env.finishTime,
                  status := "completed" }
      else
        { b1 with log := some env.saveErr,
                  error_summary := some (parse_backup_error env.saveErr db.engine),
                  finished_at := some env.finishTime,
                  status := "failed" }

/-! ### `restore_manager.run_restore` -/

/-- Environment of one `run_restore` execution: the restore child
process's observable result and the wall-clock read in `finally`. -/
structure RestoreEnv where
  procExit : Int
  procStderr : String
  finishTime : Int
deriving Repr, DecidableEq

/-- `restore_manager.run_restore`, given the already-loaded `Restore`
and `Database` rows. The engine helpers assign `restore.log` from the
captured stderr before checking the exit code; the `finally` block
assigns `finished_at` unconditionally. -/
def runRestore (env : RestoreEnv) (db : Database) (r : Restore) : Restore :=
  if db.engine = "postgres" then
    if env.procExit ≠ 0 then
      { r with log := some env.procStderr, status := "failed",
               error_summary := some ("pg_restore failed with exit code "
                 ++ toString env.procExit ++ ":\n" ++ env.procStderr),
               finished_at := some env.finishTime }
    else
      { r with log := some env.procStderr, status := "completed",
               finished_at := some env.finishTime }
  else if db.engine = "mongodb" then
    if env.procExit ≠ 0 then
      { r with log := some env.procStderr, status := "failed",
               error_summary := some ("mongorestore failed with exit code "
                 ++ toString env.procExit ++ ":\n" ++ env.procStderr),
               finished_at := some env.finishTime }
    else
      { r with log := some env.procStderr, status := "completed",
               finished_at := some env.finishTime }
  else
    { r with status := "failed",
             error_summary := some ("Restore for engine '" ++ db.engine
               ++ "' is not implemented."),
             finished_at := some env.finishTime }

/-! ### Helper lemmas about the failure messages -/

theorem append_ne_empty_left : ∀ (s t : String), s ≠ "" → s ++ t ≠ ""
  | ⟨l⟩, ⟨m⟩, h, hc => by
    apply h
    have hd : l ++ m = [] := congrArg String.data hc
    have hl : l = [] := (List.append_eq_nil.mp hd).1
    simp [hl]

theorem pgDumpGzipFailMsg_ne_empty (rc : Int) (logOut : String) :
    pgDumpGzipFailMsg rc logOut ≠ "" := by
  unfold pgDumpGzipFailMsg
  apply append_ne_empty_left
  apply append_ne_empty_left
  apply append_ne_empty_left
  decide

theorem gzipFailMsg_ne_empty (rc : Int) (logOut : String) :
    gzipFailMsg rc logOut ≠ "" := by
  unfold gzipFailMsg
  apply append_ne_empty_left
  apply append_ne_empty_left
  apply append_ne_empty_left
  decide

theorem pgFailMsg_ne_empty (rc : Int) (logOut : String) :
    pgFailMsg rc logOut ≠ "" := by
  unfold pgFailMsg
  apply append_ne_empty_left
  apply append_ne_empty_left
  apply append_ne_empty_left
  decide

theorem mongoFailMsg_ne_empty (logOut : String) : mongoFailMsg logOut ≠ "" := by
  unfold mongoFailMsg
  apply append_ne_empty_left
  decide

theorem unsupportedEngineMsg_ne_empty (eng : String) : unsupportedEngineMsg eng ≠ "" := by
  unfold unsupportedEngineMsg
  apply append_ne_empty_left
  decide

theorem dumpStage_error_ne_empty (env : RunEnv) (db : Database) (e : String)
    (h : dumpStage env db = .error e) : e ≠ "" := by
  unfold dumpStage at h
  split at h
  · split at h
    · split at h
      · injection h with h'
        subst h'
        exact pgDumpGzipFailMsg_ne_empty _ _
      · split at h
        · injection h with h'
          subst h'
          exact gzipFailMsg_ne_empty _ _
        · simp at h
    · split at h
      · injection h with h'
        subst h'
        exact pgFailMsg_ne_empty _ _
      · simp at h
  · split at h
    · split at h
      · injection h with h'
        subst h'
        exact mongoFailMsg_ne_empty _
      · simp at h
    · injection h with h'
      subst h'
      exact unsupportedEngineMsg_ne_empty _

/-- Case analysis of `runBackup`: dump failure, success, or failure at
the storage handoff (after `size_bytes`/`checksum` were assigned). -/
theorem runBackup_cases (env : RunEnv) (db : Database) (b : Backup) :
    (∃ e, dumpStage env db = .error e
      ∧ runBackup env db b =
          { b with log := some e,
                   error_summary := some (parse_backup_error e db.engine),
                   finished_at := some env.finishTime,
                   status := "failed" })
    ∨ (∃ l, dumpStage env db = .ok l ∧ env.saveOk = true
      ∧ runBackup env db b =
          { b with size_bytes := some env.dumpSize, checksum := some env.dumpMd5,
                   storage_path := some (backupStoragePath env db b),
                   log := some l,
                   finished_at := some env.finishTime,
                   status := "completed" })
    ∨ (∃ l, dumpStage env db = .ok l ∧ env.saveOk = false
      ∧ runBackup env db b =
          { b with size_bytes := some env.dumpSize, checksum := some env.dumpMd5,
                   log := some env.saveErr,
                   error_summary := some (parse_backup_error env.saveErr db.engine),
                   finished_at := some env.finishTime,
                   status := "failed" }) := by
  cases h : dumpStage env db with
  | error e =>
    exact Or.inl ⟨e, rfl, by simp [runBackup, h]⟩
  | ok l =>
    by_cases hv : env.saveOk
    · exact Or.inr (Or.inl ⟨l, rfl, hv, by simp [runBackup, h, hv]⟩)
    · exact Or.inr (Or.inr ⟨l, rfl, by simpa using hv, by simp [runBackup, h, hv]⟩)

/-! ### Claim C1 -/

/-- The population discipline that actually holds for a `Backup` row
after `run_backup` has terminated. -/
def backupPopulationInvariant (r : Backup) : Prop :=
  (r.status = "completed" ∨ r.status = "failed")
  ∧ r.finished_at.isSome = true
  ∧ (r.storage_path.isSome = true ↔ r.status = "completed")
  ∧ (r.status = "completed" →
      r.size_bytes.isSome = true ∧ r.checksum.isSome = true ∧ r.log.isSome = true)
  ∧ (r.status = "failed" → r.log.isSome = true ∧ r.log ≠ some "")

/-- A postgres resource with no compression, as registered via the API. -/
def dbPgPlain : Database :=
  { id := "d1", name := "Main DB", engine := "postgres", host := "h", port := 5432,
    username := "u", password := "pw", database_name := "maindb" }

/-- A freshly created `Backup` row, as built right before pipeline
execution (`models.py` defaults). -/
def freshBackup : Backup := { id := "b1", database_id := "d1", type := "postgres" }

/-- A run in which `pg_dump` exits nonzero. -/
def envDumpFails : RunEnv :=
  { pgDump := ⟨1, "pg_dump: error: connection refused"⟩, gzipProc := ⟨0, ""⟩,
    mongodump := ⟨0, ""⟩, dumpSize := 0, dumpMd5 := "", saveOk := true,
    saveErr := "disk full", timestamp := "2026-01-01_00-00-00", finishTime := 100 }

/-- A run in which the dump succeeds but `storage.save` raises. -/
def envSaveFails : RunEnv :=
  { pgDump := ⟨0, ""⟩, gzipProc := ⟨0, ""⟩, mongodump := ⟨0, ""⟩,
    dumpSize := 42, dumpMd5 := "d41d8cd98f00b204e9800998ecf8427e", saveOk := false,
    saveErr := "disk full", timestamp := "2026-01-01_00-00-00", finishTime := 100 }

/-- A run in which `pg_dump` exits zero but writes to stderr, and the
handoff succeeds. -/
def envStderrOnly : RunEnv :=
  { pgDump := ⟨0, "WARNING: skipping special table"⟩, gzipProc := ⟨0, ""⟩,
    mongodump := ⟨0, ""⟩, dumpSize := 42, dumpMd5 := "d41d8cd98f00b204e9800998ecf8427e",
    saveOk := true, saveErr := "disk full", timestamp := "2026-01-01_00-00-00",
    finishTime := 100 }

/-- Claim C1, counterexample: the claimed "populated if and only if
status is completed" fails on the code. A job whose `pg_dump` exits
nonzero terminates `failed` yet has `finished_at` populated, and a job
whose storage handoff fails terminates `failed` yet has `size_bytes`
and `checksum` populated (they are assigned before `storage.save`). -/
theorem runBackup_population_iff_refuted :
    ¬ (((runBackup envDumpFails dbPgPlain freshBackup).finished_at.isSome = true
          ↔ (runBackup envDumpFails dbPgPlain freshBackup).status = "completed")
       ∧ ((runBackup envSaveFails dbPgPlain freshBackup).size_bytes.isSome = true
          ↔ (runBackup envSaveFails dbPgPlain freshBackup).status = "completed")
       ∧ ((runBackup envSaveFails dbPgPlain freshBackup).checksum.isSome = true
          ↔ (runBackup envSaveFails dbPgPlain freshBackup).status = "completed")) := by
  decide

/-- Claim C1 (amended): once `run_backup` terminates, the status is
terminal and `finished_at` is always populated; `storage_path` is
populated iff the status is `completed`; `completed` implies
`size_bytes`, `checksum`, `storage_path`, `finished_at` and `log` are
populated; `failed` implies `log` is non-empty (given a non-empty
storage exception description); `size_bytes` and `checksum` may also be
populated on a failed job. `run_restore` likewise always populates
`finished_at` on termination. -/
theorem runBackup_population (env : RunEnv) (db : Database) (b : Backup)
    (envR : RestoreEnv) (dbR : Database) (r : Restore)
    (hb : b.storage_path = none) (hs : env.saveErr ≠ "") :
    backupPopulationInvariant (runBackup env db b)
    ∧ (runRestore envR dbR r).finished_at.isSome = true := by
  constructor
  · rcases runBackup_cases env db b with ⟨e, hd, hr⟩ | ⟨l, hd, hv, hr⟩ | ⟨l, hd, hv, hr⟩
    · have he := dumpStage_error_ne_empty env db e hd
      rw [hr]
      refine ⟨Or.inr rfl, rfl, ?_, ?_, ?_⟩
      · simp [hb]
      · intro hc
        have hc' : ("failed" : String) = "completed" := hc
        exact absurd hc' (by decide)
      · intro _
        refine ⟨rfl, ?_⟩
        simp only [ne_eq, Option.some.injEq]
        intro hc
        exact he hc
    · rw [hr]
      refine ⟨Or.inl rfl, rfl, by simp, fun _ => ⟨rfl, rfl, rfl⟩, ?_⟩
      intro hc
      have hc' : ("completed" : String) = "failed" := hc
      exact absurd hc' (by decide)
    · rw [hr]
      refine ⟨Or.inr rfl, rfl, ?_, ?_, ?_⟩
      · simp [hb]
      · intro hc
        have hc' : ("failed" : String) = "completed" := hc
        exact absurd hc' (by decide)
      · intro _
        refine ⟨rfl, ?_⟩
        simp only [ne_eq, Option.some.injEq]
        intro hc
        exact hs hc
  · unfold runRestore
    split
    · split
      · rfl
      · rfl
    · split
      · split
        · rfl
        · rfl
      · rfl

/-- Witness for `runBackup_population` at a concrete run. -/
theorem runBackup_population_witness :
    freshBackup.storage_path = none ∧ envStderrOnly.saveErr ≠ ""
    ∧ backupPopulationInvariant (runBackup envStderrOnly dbPgPlain freshBackup)
    ∧ (runRestore ⟨0, "", 5⟩ dbPgPlain ⟨"r1", "d1", none, "running", none, none, none⟩).finished_at.isSome = true :=
  ⟨rfl, by decide,
   (runBackup_population envStderrOnly dbPgPlain freshBackup
      ⟨0, "", 5⟩ dbPgPlain ⟨"r1", "d1", none, "running", none, none, none⟩
      rfl (by decide)).1,
   (runBackup_population envStderrOnly dbPgPlain freshBackup
      ⟨0, "", 5⟩ dbPgPlain ⟨"r1", "d1", none, "running", none, none, none⟩
      rfl (by decide)).2⟩

/-! ### Claim C4 -/

/-- Claim C4, counterexample: captured stderr content alone does not
fail the job — with exit code 0 and non-empty stderr the job completes
— and on a nonzero exit the `log` is the formatted `RuntimeError`
message, not the raw stderr verbatim. -/
theorem runBackup_stderr_does_not_fail :
    (runBackup envStderrOnly dbPgPlain freshBackup).status = "completed"
    ∧ envStderrOnly.pgDump.stderr ≠ ""
    ∧ (runBackup envDumpFails dbPgPlain freshBackup).status = "failed"
    ∧ (runBackup envDumpFails dbPgPlain freshBackup).log
        ≠ some envDumpFails.pgDump.stderr := by
  decide

/-- Claim C4 (amended): only a nonzero exit of the dump or compression
process aborts the job as `failed`, and then `log` holds the raised
error message, which embeds the captured stderr (and, on the postgres
paths, the failing process's exit code) rather than the raw stderr
alone; a zero exit of every involved process completes the job (storage
handoff permitting) even when stderr content was captured, the raw
captured stderr being stored verbatim as `log` (for the gzip pipeline,
the concatenation of both processes' stderr). -/
theorem runBackup_exit_code_decides (env : RunEnv) (db : Database) (b : Backup) :
    (db.engine = "postgres" → db.compression = "gzip" →
      ((env.pgDump.exitCode ≠ 0 →
          (runBackup env db b).status = "failed"
          ∧ (runBackup env db b).log
              = some (pgDumpGzipFailMsg env.pgDump.exitCode
                  (env.pgDump.stderr ++ env.gzipProc.stderr)))
       ∧ (env.pgDump.exitCode = 0 → env.gzipProc.exitCode ≠ 0 →
          (runBackup env db b).status = "failed"
          ∧ (runBackup env db b).log
              = some (gzipFailMsg env.gzipProc.exitCode
                  (env.pgDump.stderr ++ env.gzipProc.stderr)))
       ∧ (env.pgDump.exitCode = 0 → env.gzipProc.exitCode = 0 → env.saveOk = true →
          (runBackup env db b).status = "completed"
          ∧ (runBackup env db b).log
              = some (env.pgDump.stderr ++ env.gzipProc.stderr))))
    ∧ (db.engine = "postgres" → db.compression ≠ "gzip" →
      ((env.pgDump.exitCode ≠ 0 →
          (runBackup env db b).status = "failed"
          ∧ (runBackup env db b).log
              = some (pgFailMsg env.pgDump.exitCode env.pgDump.stderr))
       ∧ (env.pgDump.exitCode = 0 → env.saveOk = true →
          (runBackup env db b).status = "completed"
          ∧ (runBackup env db b).log = some env.pgDump.stderr)))
    ∧ (db.engine = "mongodb" →
      ((env.mongodump.exitCode ≠ 0 →
          (runBackup env db b).status = "failed"
          ∧ (runBackup env db b).log = some (mongoFailMsg env.mongodump.stderr))
       ∧ (env.mongodump.exitCode = 0 → env.saveOk = true →
          (runBackup env db b).status = "completed"
          ∧ (runBackup env db b).log = some env.mongodump.stderr))) := by
  refine ⟨?_, ?_, ?_⟩
  · intro h1 h2
    refine ⟨?_, ?_, ?_⟩
    · intro hrc
      have hd : dumpStage env db
          = .error (pgDumpGzipFailMsg env.pgDump.exitCode
              (env.pgDump.stderr ++ env.gzipProc.stderr)) := by
        simp [dumpStage, h1, h2, hrc]
      simp [runBackup, hd]
    · intro hrc1 hrc2
      have hd : dumpStage env db
          = .error (gzipFailMsg env.gzipProc.exitCode
              (env.pgDump.stderr ++ env.gzipProc.stderr)) := by
        simp [dumpStage, h1, h2, hrc1, hrc2]
      simp [runBackup, hd]
    · intro hrc1 hrc2 hv
      have hd : dumpStage env db = .ok (env.pgDump.stderr ++ env.gzipProc.stderr) := by
        simp [dumpStage, h1, h2, hrc1, hrc2]
      simp [runBackup, hd, hv]
  · intro h1 h2
    constructor
    · intro hrc
      have hd : dumpStage env db = .error (pgFailMsg env.pgDump.exitCode env.pgDump.stderr) := by
        simp [dumpStage, h1, h2, hrc]
      simp [runBackup, hd]
    · intro hrc hv
      have hd : dumpStage env db = .ok env.pgDump.stderr := by
        simp [dumpStage, h1, h2, hrc]
      simp [runBackup, hd, hv]
  · intro h1
    have hne : db.engine ≠ "postgres" := by
      rw [h1]
      decide
    constructor
    · intro hrc
      have hd : dumpStage env db = .error (mongoFailMsg env.mongodump.stderr) := by
        simp [dumpStage, h1, hne, hrc]
      simp [runBackup, hd]
    · intro hrc hv
      have hd : dumpStage env db = .ok env.mongodump.stderr := by
        simp [dumpStage, h1, hne, hrc]
      simp [runBackup, hd, hv]

/-- A postgres resource with gzip compression. -/
def dbPgGzip : Database := { dbPgPlain with compression := "gzip" }

/-- A gzip-pipeline run in which `pg_dump` exits zero but the `gzip`
filter exits nonzero. -/
def envGzipFails : RunEnv :=
  { pgDump := ⟨0, "pg_dump: warning"⟩,
    gzipProc := ⟨2, "gzip: stdin: unexpected end of file"⟩,
    mongodump := ⟨0, ""⟩, dumpSize := 0, dumpMd5 := "", saveOk := true,
    saveErr := "disk full", timestamp := "2026-01-01_00-00-00", finishTime := 100 }

/-- Witness for `runBackup_exit_code_decides` at concrete runs: the
uncompressed postgres failure path and the gzip-pipeline failure path. -/
theorem runBackup_exit_code_decides_witness :
    (dbPgPlain.engine = "postgres" ∧ dbPgPlain.compression ≠ "gzip"
     ∧ envDumpFails.pgDump.exitCode ≠ 0
     ∧ (runBackup envDumpFails dbPgPlain freshBackup).status = "failed"
     ∧ (runBackup envDumpFails dbPgPlain freshBackup).log
         = some (pgFailMsg envDumpFails.pgDump.exitCode envDumpFails.pgDump.stderr))
    ∧ (dbPgGzip.engine = "postgres" ∧ dbPgGzip.compression = "gzip"
       ∧ envGzipFails.pgDump.exitCode = 0 ∧ envGzipFails.gzipProc.exitCode ≠ 0
       ∧ (runBackup envGzipFails dbPgGzip freshBackup).status = "failed"
       ∧ (runBackup envGzipFails dbPgGzip freshBackup).log
           = some (gzipFailMsg envGzipFails.gzipProc.exitCode
               (envGzipFails.pgDump.stderr ++ envGzipFails.gzipProc.stderr))) :=
  ⟨⟨rfl, by decide, by decide,
    ((runBackup_exit_code_decides envDumpFails dbPgPlain freshBackup).2.1
       rfl (by decide)).1 (by decide)⟩,
   ⟨rfl, rfl, rfl, by decide,
    ((runBackup_exit_code_decides envGzipFails dbPgGzip freshBackup).1
       rfl rfl).2.1 rfl (by decide)⟩⟩

/-! ### Storage provider delete and the retention engine (`scheduler.py`) -/

/-- `StorageProvider.delete` (`storage.py`): deleting an absent path is
success; for a present path the outcome of the underlying I/O/API call
is supplied by the `delOk` oracle; on success the artifact disappears,
on failure it remains. Returns the reported Boolean and the resulting
artifact set. -/
def storageDelete (delOk : String → Bool) (files : List String) (p : String) :
    Bool × List String :=
  if p ∈ files then
    if delOk p then (true, files.filter (fun q => q != p)) else (false, files)
  else (true, files)

/-- Backup rows plus stored artifacts, as seen by the retention engine. -/
structure RetState where
  backups : List Backup
  files : List String
deriving Repr, DecidableEq

/-- Selection of the time-based retention rule (`scheduler.py` lines
84-92): completed backups of `db` whose `finished_at` is strictly older
than `now - retention_days` (time in days, since the code subtracts
`timedelta(days=retention_days)`; SQL `NULL < cutoff` selects nothing). -/
def timeEligible (db : Database) (now : Int) (rd : Int) (b : Backup) : Bool :=
  b.database_id == db.id && b.status == "completed"
    && (match b.finished_at with
        | some t => decide (t < now - rd)
        | none => false)

/-- Completed backups of `db` (the count-based rule's query filter). -/
def completedFor (db : Database) (b : Backup) : Bool :=
  b.database_id == db.id && b.status == "completed"

/-- Insertion into a list sorted by `r`. -/
def insertBy {α : Type} (r : α → α → Bool) (a : α) : List α → List α
  | [] => [a]
  | b :: bs => if r a b then a :: b :: bs else b :: insertBy r a bs

/-- Insertion sort by `r`, used to model the query's `ORDER BY`. -/
def sortBy {α : Type} (r : α → α → Bool) : List α → List α
  | [] => []
  | a :: as => insertBy r a (sortBy r as)

/-- `ORDER BY finished_at DESC` (`NULL` ordered last under `DESC`). -/
def finishedDescGe (a b : Backup) : Bool :=
  match a.finished_at, b.finished_at with
  | none, none => true
  | none, some _ => false
  | some _, none => true
  | some x, some y => decide (y ≤ x)

/-- One deletion loop of `enforce_retention` (lines 93-98 and 111-116):
for each selected backup, the storage artifact delete is attempted
first when a `storage_path` is set — its Boolean result is ignored —
and the row is deleted unconditionally afterwards. -/
def deleteBackupsPass (delOk : String → Bool) :
    List Backup → RetState → RetState
  | [], st => st
  | b :: rest, st =>
    let files' := match b.storage_path with
      | some p => (storageDelete delOk st.files p).2
      | none => st.files
    deleteBackupsPass delOk rest
      { backups := st.backups.filter (fun x => x.id != b.id), files := files' }

/-- The time-based block of `enforce_retention` (lines 84-98). -/
def timePass (delOk : String → Bool) (now : Int) (db : Database)
    (st : RetState) : RetState :=
  match db.retention_days with
  | some rd => deleteBackupsPass delOk (st.backups.filter (timeEligible db now rd)) st
  | none => st

/-- The count-based block of `enforce_retention` (lines 101-116),
operating on the rows that remain after the session flush. -/
def countPass (delOk : String → Bool) (db : Database) (st : RetState) : RetState :=
  match db.max_backups with
  | some m =>
    if m < (sortBy finishedDescGe (st.backups.filter (completedFor db))).length then
      deleteBackupsPass delOk
        ((sortBy finishedDescGe (st.backups.filter (completedFor db))).drop m) st
    else st
  | none => st

/-- `enforce_retention` restricted to one `Database` row: the time-based
rule, then the count-based rule. -/
def retentionSweepDb (delOk : String → Bool) (now : Int) (db : Database)
    (st : RetState) : RetState :=
  countPass delOk db (timePass delOk now db st)

/-! ### Retention lemmas -/

theorem storageDelete_mem (delOk : String → Bool) (files : List String) (p q : String)
    (h : delOk p = false ∨ p ≠ q) :
    (p ∈ (storageDelete delOk files q).2 ↔ p ∈ files) := by
  unfold storageDelete
  split
  · split
    · rename_i hq
      have hpq : p ≠ q := by
        rcases h with h | h
        · intro he
          rw [he] at h
          rw [h] at hq
          cases hq
        · exact h
      simp [List.mem_filter, bne, hpq]
    · exact Iff.rfl
  · exact Iff.rfl

theorem deleteBackupsPass_backups (delOk delOk' : String → Bool) :
    ∀ (l : List Backup) (st st' : RetState), st.backups = st'.backups →
      (deleteBackupsPass delOk l st).backups = (deleteBackupsPass delOk' l st').backups
  | [], st, st', h => h
  | b :: rest, st, st', h => by
    unfold deleteBackupsPass
    exact deleteBackupsPass_backups delOk delOk' rest _ _ (by simp [h])

theorem deleteBackupsPass_files_mem (delOk : String → Bool) (p : String)
    (hp : delOk p = false) :
    ∀ (l : List Backup) (st : RetState),
      (p ∈ (deleteBackupsPass delOk l st).files ↔ p ∈ st.files)
  | [], st => Iff.rfl
  | b :: rest, st => by
    unfold deleteBackupsPass
    refine (deleteBackupsPass_files_mem delOk p hp rest _).trans ?_
    cases hsp : b.storage_path with
    | none => exact Iff.rfl
    | some q => exact storageDelete_mem delOk st.files p q (Or.inl hp)

theorem timePass_backups (delOk delOk' : String → Bool) (now : Int) (db : Database)
    (st st' : RetState) (h : st.backups = st'.backups) :
    (timePass delOk now db st).backups = (timePass delOk' now db st').backups := by
  unfold timePass
  cases db.retention_days with
  | none => exact h
  | some rd =>
    rw [h]
    exact deleteBackupsPass_backups delOk delOk' _ st st' h

theorem timePass_files_mem (delOk : String → Bool) (now : Int) (db : Database)
    (st : RetState) (p : String) (hp : delOk p = false) :
    (p ∈ (timePass delOk now db st).files ↔ p ∈ st.files) := by
  unfold timePass
  cases db.retention_days with
  | none => exact Iff.rfl
  | some rd => exact deleteBackupsPass_files_mem delOk p hp _ st

theorem countPass_backups (delOk delOk' : String → Bool) (db : Database)
    (st st' : RetState) (h : st.backups = st'.backups) :
    (countPass delOk db st).backups = (countPass delOk' db st').backups := by
  cases hmb : db.max_backups with
  | none =>
    simp only [countPass, hmb]
    exact h
  | some m =>
    simp only [countPass, hmb]
    rw [h]
    split
    · exact deleteBackupsPass_backups delOk delOk' _ st st' h
    · exact h

theorem countPass_files_mem (delOk : String → Bool) (db : Database)
    (st : RetState) (p : String) (hp : delOk p = false) :
    (p ∈ (countPass delOk db st).files ↔ p ∈ st.files) := by
  cases hmb : db.max_backups with
  | none =>
    simp only [countPass, hmb]
  | some m =>
    simp only [countPass, hmb]
    split
    · exact deleteBackupsPass_files_mem delOk p hp _ st
    · exact Iff.rfl

/-! ### Claim C2 -/

/-- An oracle under which every storage deletion reports failure. -/
def delFail : String → Bool := fun _ => false

/-- An oracle under which every storage deletion succeeds. -/
def delAll : String → Bool := fun _ => true

/-- A resource with a 7-day time-based retention policy. -/
def dbC2 : Database := { dbPgPlain with retention_days := some 7 }

/-- A completed backup finished 10 days ago with a stored artifact. -/
def bOld : Backup :=
  { id := "b9", database_id := "d1", type := "postgres", status := "completed",
    finished_at := some (-10), storage_path := some "backups/x/f9.sql" }

/-- State holding that backup's row and artifact. -/
def stC2 : RetState := { backups := [bOld], files := ["backups/x/f9.sql"] }

/-- Claim C2, counterexample: `enforce_retention` ignores the Boolean
returned by `storage.delete`. With a storage backend whose deletions
all fail, the selected Job's record is still removed while its artifact
remains — exactly the orphaned state the claim rules out. -/
theorem retention_orphan_state_reachable :
    (retentionSweepDb delFail 0 dbC2 stC2).backups = []
    ∧ (retentionSweepDb delFail 0 dbC2 stC2).files = ["backups/x/f9.sql"] := by
  decide

/-- Claim C2 (amended): during a retention sweep the storage artifact
delete is attempted before the record is removed, but the record
removal proceeds regardless of the storage deletion's result — the set
of surviving rows is independent of the storage oracle — while an
artifact whose deletion reports failure is left in storage. -/
theorem retention_record_deletion_ignores_storage
    (delOk delOk' : String → Bool) (now : Int) (db : Database)
    (st : RetState) (p : String) (hp : delOk p = false) :
    (retentionSweepDb delOk now db st).backups
      = (retentionSweepDb delOk' now db st).backups
    ∧ (p ∈ (retentionSweepDb delOk now db st).files ↔ p ∈ st.files) := by
  constructor
  · exact countPass_backups delOk delOk' db _ _
      (timePass_backups delOk delOk' now db st st rfl)
  · exact (countPass_files_mem delOk db _ p hp).trans
      (timePass_files_mem delOk now db st p hp)

/-- Witness for `retention_record_deletion_ignores_storage` on the
concrete failing-storage sweep. -/
theorem retention_record_deletion_ignores_storage_witness :
    delFail "backups/x/f9.sql" = false
    ∧ ((retentionSweepDb delFail 0 dbC2 stC2).backups
        = (retentionSweepDb delAll 0 dbC2 stC2).backups
       ∧ ("backups/x/f9.sql" ∈ (retentionSweepDb delFail 0 dbC2 stC2).files
          ↔ "backups/x/f9.sql" ∈ stC2.files)) :=
  ⟨rfl, retention_record_deletion_ignores_storage delFail delAll 0 dbC2 stC2
          "backups/x/f9.sql" rfl⟩

/-! ### Claim C3 -/

/-- A completed backup row for the retention example. -/
def mkCompletedBackup (i : String) (t : Int) (p : String) : Backup :=
  { id := i, database_id := "d1", type := "postgres", status := "completed",
    finished_at := some t, storage_path := some p }

/-- The resource of the example: `retention_days = 7`, `max_count = 3`. -/
def dbC3 : Database :=
  { dbPgPlain with retention_days := some 7, max_backups := some 3 }

/-- Five completed Jobs whose finish times are 1, 2, 8, 9 and 10 days
old (now = day 0). -/
def stC3 : RetState :=
  { backups := [mkCompletedBackup "a1" (-1) "p1", mkCompletedBackup "a2" (-2) "p2",
                mkCompletedBackup "a3" (-8) "p3", mkCompletedBackup "a4" (-9) "p4",
                mkCompletedBackup "a5" (-10) "p5"],
    files := ["p1", "p2", "p3", "p4", "p5"] }

/-- Claim C3, counterexample: with ages [1,2,8,9,10] and
`retention_days = 7`, the time-based rule selects *three* Jobs (ages 8,
9 and 10 are all older than 7 days), not the claimed two, so the
claimed decomposition "two by the time rule plus one by the count rule"
is false; exactly the three time-rule Jobs are deleted. -/
theorem retention_example_decomposition_refuted :
    ((stC3.backups.filter (timeEligible dbC3 0 7)).length = 3
     ∧ ¬ (stC3.backups.filter (timeEligible dbC3 0 7)).length = 2)
    ∧ (retentionSweepDb delAll 0 dbC3 stC3).backups.map (fun b => b.id)
        = ["a1", "a2"] := by
  decide

/-- Claim C3 (amended): one run of retention enforcement deletes
exactly 3 Jobs — the three older than 7 days, all selected by the
time-based rule; the count-based rule then sees only the 2 remaining
completed Jobs, within the 3-newest cap, and deletes nothing; each Job
is deleted exactly once, the deleted set being the union of the
time-rule set and the (empty) count-rule set. -/
theorem retention_example_deletes_exactly_three :
    (retentionSweepDb delAll 0 dbC3 stC3).backups.map (fun b => b.id) = ["a1", "a2"]
    ∧ (retentionSweepDb delAll 0 dbC3 stC3).files = ["p1", "p2"]
    ∧ (stC3.backups.filter (timeEligible dbC3 0 7)).map (fun b => b.id)
        = ["a3", "a4", "a5"]
    ∧ ((timePass delAll 0 dbC3 stC3).backups.filter (completedFor dbC3)).length = 2 := by
  decide

/-! ### Scheduler reconciliation (`scheduler.schedule_database_backups`) -/

/-- The live timer set: APScheduler job id → the cron schedule of its
trigger (absent = no such timer). -/
def Timers : Type := String → Option String

/-- APScheduler job id of a resource's backup timer (`scheduler.py`
line 52). -/
def jobKey (db : Database) : String := "backup_" ++ db.id

/-- Python truthiness of `db.schedule` (`None` and `""` are falsy). -/
def truthySchedule : Option String → Bool
  | none => false
  | some s => s != ""

/-- One loop iteration of `schedule_database_backups` (lines 51-65): a
truthy schedule upserts the resource's timer (`replace_existing=True`),
a falsy one removes the timer if present. -/
def applyResource (t : Timers) (db : Database) : Timers :=
  fun k =>
    if k = jobKey db then
      (if truthySchedule db.schedule then db.schedule else none)
    else t k

/-- `schedule_database_backups`: iterates over *all* `Database` rows —
the query at line 50 applies no `is_deleted` filter — reconciling the
live timer set. -/
def scheduleDatabaseBackups (dbs : List Database) (t : Timers) : Timers :=
  dbs.foldl applyResource t

/-- `list_databases` (`routers/databases.py` line 28): only rows with
`is_deleted == False` are returned. -/
def listDatabases (dbs : List Database) : List Database :=
  dbs.filter (fun db => db.is_deleted == false)

/-- The last row of `dbs` whose timer key is `k` (the one whose upsert
or removal lands last). -/
def lastTouch (dbs : List Database) (k : String) : Option Database :=
  dbs.reverse.find? (fun db => jobKey db == k)

theorem scheduleDatabaseBackups_apply (dbs : List Database) (t : Timers) (k : String) :
    scheduleDatabaseBackups dbs t k =
      match lastTouch dbs k with
      | some db => if truthySchedule db.schedule then db.schedule else none
      | none => t k := by
  induction dbs generalizing t with
  | nil => rfl
  | cons db dbs ih =>
    show scheduleDatabaseBackups dbs (applyResource t db) k = _
    rw [ih]
    unfold lastTouch
    rw [List.reverse_cons, List.find?_append]
    cases hf : dbs.reverse.find? (fun d => jobKey d == k) with
    | some d => simp [lastTouch, hf, Option.orElse]
    | none =>
      simp only [lastTouch, hf, Option.orElse, Option.none_orElse]
      unfold applyResource
      by_cases hk : k = jobKey db
      · simp [List.find?, hk]
      · have hbe : (jobKey db == k) = false := by
          simp [beq_iff_eq]
          exact fun he => hk he.symm
        simp [List.find?, hbe, hk]

theorem find?_last_key (db : Database) : ∀ (dbs : List Database), db ∈ dbs →
    ((dbs.map jobKey).Nodup) →
    dbs.reverse.find? (fun x => jobKey x == jobKey db) = some db := by
  intro dbs
  induction dbs with
  | nil => intro h; cases h
  | cons d ds ih =>
    intro hmem hnd
    rw [List.reverse_cons, List.find?_append]
    rcases List.mem_cons.mp hmem with he | hm
    · subst he
      have hnd' : (∀ x ∈ ds, ¬ jobKey x = jobKey db) ∧ (ds.map jobKey).Nodup := by
        simpa using hnd
      have hnone : ds.reverse.find? (fun x => jobKey x == jobKey db) = none := by
        rw [List.find?_eq_none]
        intro x hx hbe
        exact hnd'.1 x (List.mem_reverse.mp hx) (by simpa using hbe)
      rw [hnone]
      simp [List.find?, Option.orElse]
    · have hnd' : (ds.map jobKey).Nodup := by
        have h : (∀ x ∈ ds, ¬ jobKey x = jobKey d) ∧ (ds.map jobKey).Nodup := by
          simpa using hnd
        exact h.2
      rw [ih hm hnd']
      simp [Option.orElse]

/-! ### Claim C8 -/

/-- Claim C8: scheduler reconciliation is idempotent — running
`schedule_database_backups` twice with an unchanged resource set yields
exactly the timer set of one run — and afterwards a resource with a
(truthy) schedule has exactly its one timer under its identity key
while a resource without one has none, provided timer keys identify
resources uniquely. -/
theorem scheduleDatabaseBackups_idempotent (dbs : List Database) (t : Timers) :
    (∀ k, scheduleDatabaseBackups dbs (scheduleDatabaseBackups dbs t) k
          = scheduleDatabaseBackups dbs t k)
    ∧ (∀ db, db ∈ dbs → (dbs.map jobKey).Nodup →
        (truthySchedule db.schedule = true →
          scheduleDatabaseBackups dbs t (jobKey db) = db.schedule)
        ∧ (truthySchedule db.schedule = false →
          scheduleDatabaseBackups dbs t (jobKey db) = none)) := by
  constructor
  · intro k
    rw [scheduleDatabaseBackups_apply, scheduleDatabaseBackups_apply]
    cases hf : lastTouch dbs k with
    | some d => simp [hf]
    | none => simp [hf, scheduleDatabaseBackups_apply]
  · intro db hmem hnd
    have hl : lastTouch dbs (jobKey db) = some db := find?_last_key db dbs hmem hnd
    constructor
    · intro ht
      rw [scheduleDatabaseBackups_apply, hl]
      simp [ht]
    · intro ht
      rw [scheduleDatabaseBackups_apply, hl]
      simp [ht]

/-- A resource with a cron schedule. -/
def dbSched : Database := { dbPgPlain with id := "dA", schedule := some "0 3 * * *" }

/-- A resource without a schedule. -/
def dbNoSched : Database := { dbPgPlain with id := "dB", schedule := none }

/-- A concrete resource set for the reconciliation witness. -/
def dbsW : List Database := [dbSched, dbNoSched]

/-- The empty timer set. -/
def noTimers : Timers := fun _ => none

/-- Witness for `scheduleDatabaseBackups_idempotent` on a concrete
resource set. -/
theorem scheduleDatabaseBackups_idempotent_witness :
    (scheduleDatabaseBackups dbsW (scheduleDatabaseBackups dbsW noTimers) (jobKey dbSched)
      = scheduleDatabaseBackups dbsW noTimers (jobKey dbSched))
    ∧ dbSched ∈ dbsW ∧ (dbsW.map jobKey).Nodup
    ∧ scheduleDatabaseBackups dbsW noTimers (jobKey dbSched) = dbSched.schedule
    ∧ scheduleDatabaseBackups dbsW noTimers (jobKey dbNoSched) = none :=
  ⟨(scheduleDatabaseBackups_idempotent dbsW noTimers).1 (jobKey dbSched),
   by decide, by decide,
   ((scheduleDatabaseBackups_idempotent dbsW noTimers).2 dbSched
      (by decide) (by decide)).1 (by decide),
   ((scheduleDatabaseBackups_idempotent dbsW noTimers).2 dbNoSched
      (by decide) (by decide)).2 (by decide)⟩

/-! ### Claim C7 -/

/-- A config-file-declared resource that was soft-deleted via the API
(`delete_database` sets `is_deleted = True` and keeps the row), still
carrying its cron schedule. -/
def dbGhost : Database :=
  { dbPgPlain with
      id := "d7", name := "ghost", schedule := some "0 3 * * *",
      config_id := some "cfg7", override_static_config := true, is_deleted := true }

/-- Claim C7 (code-bug evidence): a soft-deleted config-file resource
is excluded from the list endpoint, but `schedule_database_backups`
selects all `Database` rows without an `is_deleted` filter, so the next
reconciliation (re)creates a backup timer for the soft-deleted
resource with its schedule. -/
theorem softDeleted_excluded_from_listing_but_scheduled :
    listDatabases [dbGhost] = []
    ∧ scheduleDatabaseBackups [dbGhost] noTimers (jobKey dbGhost)
        = some "0 3 * * *" := by
  decide

/-! ### Declarative config sync (`config.py`) -/

/-- One entry of the declarative config document's `databases` list,
with the keys the sync loop reads; an `Option` field's `none` models
the key being absent from the YAML mapping. `name`, `engine`, `host`,
`port` and `database_name` are the payload keys a well-formed entry
carries. -/
structure DbConfItem where
  id : Option String := none
  name : String := ""
  engine : String := ""
  host : String := ""
  port : Nat := 0
  database_name : String := ""
  username : Option String := none
  password : Option String := none
  username_var : Option String := none
  password_var : Option String := none
  schedule : Option String := none
  compression : Option String := none
  retention_days : Option Int := none
  max_backups : Option Nat := none
deriving Repr, DecidableEq

/-- The `global` defaults block, restricted to the defaultable keys
(`db_defaults` in `config.py`). -/
structure GlobalConf where
  schedule : Option String := none
  compression : Option String := none
  retention_days : Option Int := none
  max_backups : Option Nat := none
deriving Repr, DecidableEq

/-- A parsed declarative config document. -/
structure ConfigDoc where
  globalConf : GlobalConf := {}
  databases : List DbConfItem := []
deriving Repr, DecidableEq

/-- A truthy `id` (`conf.get('id')`): present and non-empty. -/
def truthyId (c : DbConfItem) : Option String :=
  match c.id with
  | some s => if s = "" then none else some s
  | none => none

/-- The ids collected for duplicate detection (`config.py` line 81). -/
def truthyIds (items : List DbConfItem) : List String :=
  items.filterMap truthyId

/-- `len(config_ids) > len(set(config_ids))` (line 82). -/
def hasDupIds (items : List DbConfItem) : Bool :=
  if (truthyIds items).Nodup then false else true

/-- Application of the `global` defaults (lines 94-98): only absent
defaultable keys are filled in. -/
def applyGlobals (g : GlobalConf) (c : DbConfItem) : DbConfItem :=
  { c with schedule := c.schedule <|> g.schedule,
           compression := c.compression <|> g.compression,
           retention_days := c.retention_days <|> g.retention_days,
           max_backups := c.max_backups <|> g.max_backups }

/-- Credential resolution (lines 110-116): an absent credential is
looked up through its environment-variable indirection. -/
def resolveCreds (env : String → Option String) (c : DbConfItem) : DbConfItem :=
  { c with username := c.username <|> (match c.username_var with
             | some v => env v
             | none => none),
           password := c.password <|> (match c.password_var with
             | some v => env v
             | none => none) }

/-- Python truthiness of a resolved credential. -/
def truthyCred : Option String → Bool
  | none => false
  | some s => s != ""

/-- `Database(config_id=..., **config)` (line 147); the random
uuid-based primary key is modelled deterministically from the config
id. -/
def mkDatabase (cid : String) (c : DbConfItem) (u p : String) : Database :=
  { id := "db_cfg_" ++ cid, name := c.name, engine := c.engine, host := c.host,
    port := c.port, username := u, password := p,
    database_name := c.database_name, schedule := c.schedule,
    retention_days := c.retention_days, max_backups := c.max_backups,
    compression := c.compression.getD "none", config_id := some cid }

/-- `setattr(existing_db, key, value)` for every key present in the
entry (lines 142-143); absent keys leave the row's value in place. -/
def updateDatabase (ex : Database) (c : DbConfItem) (u p : String) : Database :=
  { ex with name := c.name, engine := c.engine, host := c.host, port := c.port,
            username := u, password := p, database_name := c.database_name,
            schedule := (match c.schedule with
              | some s => some s
              | none => ex.schedule),
            compression := c.compression.getD ex.compression,
            retention_days := (match c.retention_days with
              | some v => some v
              | none => ex.retention_days),
            max_backups := (match c.max_backups with
              | some v => some v
              | none => ex.max_backups) }

/-- One iteration of the `load_and_sync_databases` loop (lines 93-148):
skip on missing id or credentials; skip existing rows that are
API-overridden or soft-deleted; update or create otherwise. -/
def syncOne (env : String → Option String) (g : GlobalConf)
    (dbs : List Database) (c0 : DbConfItem) : List Database :=
  let c := resolveCreds env (applyGlobals g c0)
  match truthyId c with
  | none => dbs
  | some cid =>
    if truthyCred c.username && truthyCred c.password then
      match dbs.find? (fun db => db.config_id == some cid) with
      | some ex =>
        if ex.override_static_config then dbs
        else if ex.is_deleted then dbs
        else dbs.map (fun db =>
          if db.id == ex.id then
            updateDatabase db c (c.username.getD "") (c.password.getD "")
          else db)
      | none => dbs ++ [mkDatabase cid c (c.username.getD "") (c.password.getD "")]
    else dbs

/-- `load_and_sync_databases` (`config.py` lines 66-162), returning
`(raised ValueError, committed rows)`: the duplicate-id check precedes
the loop, so on abort no row was written. -/
def loadAndSyncDatabases (env : String → Option String) (doc : Option ConfigDoc)
    (dbs : List Database) : Option String × List Database :=
  match doc with
  | none => (none, dbs)
  | some d =>
    if d.databases.isEmpty then (none, dbs)
    else if hasDupIds d.databases then
      (some "Duplicate IDs found in config.yaml. Halting sync process.", dbs)
    else (none, d.databases.foldl (syncOne env d.globalConf) dbs)

/-- One creation iteration of `overwrite_static_config` (lines
206-235): like `syncOne` but always creating — the static rows were
all deleted beforehand. -/
def overwriteOne (env : String → Option String) (g : GlobalConf)
    (dbs : List Database) (c0 : DbConfItem) : List Database :=
  let c := resolveCreds env (applyGlobals g c0)
  match truthyId c with
  | none => dbs
  | some cid =>
    if truthyCred c.username && truthyCred c.password then
      dbs ++ [mkDatabase cid c (c.username.getD "") (c.password.getD "")]
    else dbs

/-- `overwrite_static_config` (`config.py` lines 165-247): deletes
every config-declared row (session-flushed, not committed), then
validates and recreates; the duplicate-id `ValueError` rolls the
session back, so the committed rows are the original ones. -/
def overwriteStaticConfig (env : String → Option String) (doc : Option ConfigDoc)
    (dbs : List Database) : Option String × List Database :=
  let d := doc.getD {}
  let pending := dbs.filter (fun db => db.config_id == none)
  if d.databases.isEmpty then (none, pending)
  else if hasDupIds d.databases then
    (some "Duplicate IDs found in uploaded YAML. Halting process.", dbs)
  else (none, d.databases.foldl (overwriteOne env d.globalConf) pending)

/-! ### Claim C6 -/

/-- Claim C6: a declarative config document containing two entries with
the same id aborts both sync surfaces (config reload and bulk config
replace) entirely with a validation failure: the committed rows are
exactly the previously existing ones — no Resource from the document is
created or updated and no existing Resource is touched. -/
theorem duplicate_ids_abort_sync (env : String → Option String) (d : ConfigDoc)
    (dbs : List Database) (hdup : hasDupIds d.databases = true) :
    (loadAndSyncDatabases env (some d) dbs).1.isSome = true
    ∧ (loadAndSyncDatabases env (some d) dbs).2 = dbs
    ∧ (overwriteStaticConfig env (some d) dbs).1.isSome = true
    ∧ (overwriteStaticConfig env (some d) dbs).2 = dbs := by
  have hne : d.databases.isEmpty = false := by
    cases hd : d.databases with
    | nil =>
      rw [hd] at hdup
      exact absurd hdup (by decide)
    | cons a l => rfl
  simp [loadAndSyncDatabases, overwriteStaticConfig, hne, hdup]

/-- An environment with no variables set. -/
def envEmpty : String → Option String := fun _ => none

/-- A document whose two entries share the id `"x"`. -/
def confDup : ConfigDoc :=
  { databases :=
      [{ id := some "x", name := "one", username := some "u", password := some "p" },
       { id := some "x", name := "two", username := some "u", password := some "p" }] }

/-- Previously existing rows for the sync witness. -/
def dbsExisting : List Database := [dbPgPlain]

/-- Witness for `duplicate_ids_abort_sync` on a concrete duplicate-id
document. -/
theorem duplicate_ids_abort_sync_witness :
    hasDupIds confDup.databases = true
    ∧ ((loadAndSyncDatabases envEmpty (some confDup) dbsExisting).1.isSome = true
       ∧ (loadAndSyncDatabases envEmpty (some confDup) dbsExisting).2 = dbsExisting
       ∧ (overwriteStaticConfig envEmpty (some confDup) dbsExisting).1.isSome = true
       ∧ (overwriteStaticConfig envEmpty (some confDup) dbsExisting).2 = dbsExisting) :=
  ⟨by decide, duplicate_ids_abort_sync envEmpty confDup dbsExisting (by decide)⟩

/-! ### Restore endpoints (`routers/backups.py`, `routers/databases.py`) -/

/-- The relevant application settings (`dependencies.get_settings`). -/
structure Settings where
  restore_mode : Bool := false
deriving Repr, DecidableEq

/-- Rows visible to the API handlers. -/
structure ApiState where
  dbs : List Database
  backups : List Backup
  restores : List Restore
deriving Repr, DecidableEq

/-- HTTP-level outcome of a restore endpoint. -/
inductive RestoreOutcome where
  | forbidden
  | notFound (detail : String)
  | accepted (restore_id : String)
  | serverError (detail : String)
deriving Repr, DecidableEq

/-- `restore_from_backup` (`routers/backups.py` lines 82-133). The
`check_restore_mode` dependency runs before the handler body and raises
the fixed 403 when the flag is falsy; `rid` is the generated Restore
primary key; `downloadOk`/`dlErr` supply the outcome of materializing
the artifact. -/
def restoreFromBackup (s : Settings) (rid : String) (downloadOk : Bool)
    (dlErr : String) (st : ApiState) (backup_id : String) :
    RestoreOutcome × ApiState :=
  if s.restore_mode = false then (.forbidden, st)
  else
    match st.backups.find? (fun b => b.id == backup_id) with
    | none => (.notFound "Backup not found", st)
    | some b =>
      match st.dbs.find? (fun d => d.id == b.database_id) with
      | none => (.notFound "Database not found for this backup", st)
      | some db =>
        if downloadOk then
          (.accepted rid,
           { st with restores := st.restores
               ++ [{ id := rid, database_id := db.id, backup_id := some b.id }] })
        else
          (.serverError ("Failed to start restore process: " ++ dlErr),
           { st with restores := st.restores
               ++ [{ id := rid, database_id := db.id, backup_id := some b.id,
                     status := "failed",
                     error_summary := some ("Failed to prepare restore: " ++ dlErr) }] })

/-- `restore_from_upload` (`routers/databases.py` lines 138-182),
analogous; `copyOk`/`cpErr` supply the outcome of spooling the uploaded
file to a temporary path. -/
def restoreFromUpload (s : Settings) (rid : String) (copyOk : Bool)
    (cpErr : String) (st : ApiState) (database_id : String) :
    RestoreOutcome × ApiState :=
  if s.restore_mode = false then (.forbidden, st)
  else
    match st.dbs.find? (fun d => d.id == database_id) with
    | none => (.notFound "Database not found", st)
    | some db =>
      if db.is_deleted then (.notFound "Database not found", st)
      else if copyOk then
        (.accepted rid,
         { st with restores := st.restores ++ [{ id := rid, database_id := db.id }] })
      else
        (.serverError ("Failed to start restore process: " ++ cpErr),
         { st with restores := st.restores
             ++ [{ id := rid, database_id := db.id, status := "failed",
                   error_summary :=
                     some ("Failed to prepare restore from upload: " ++ cpErr) }] })

/-! ### Claim C5 -/

/-- Claim C5: with the global restore-mode flag disabled, both restore
surfaces short-circuit to the fixed forbidden outcome before the
handler body runs, leaving the state untouched — in particular no
Restore record is created. -/
theorem restore_gate_blocks_without_mutation (s : Settings) (rid : String)
    (ok : Bool) (err : String) (st : ApiState) (bid did : String)
    (hs : s.restore_mode = false) :
    restoreFromBackup s rid ok err st bid = (.forbidden, st)
    ∧ restoreFromUpload s rid ok err st did = (.forbidden, st) := by
  constructor
  · simp [restoreFromBackup, hs]
  · simp [restoreFromUpload, hs]

/-- Rows for the restore-gate witness. -/
def stApi : ApiState := { dbs := [dbPgPlain], backups := [freshBackup], restores := [] }

/-- Witness for `restore_gate_blocks_without_mutation` with the gate
disabled. -/
theorem restore_gate_blocks_without_mutation_witness :
    (Settings.mk false).restore_mode = false
    ∧ restoreFromBackup ⟨false⟩ "r1" true "" stApi "b1" = (.forbidden, stApi)
    ∧ restoreFromUpload ⟨false⟩ "r1" true "" stApi "d1" = (.forbidden, stApi) :=
  ⟨rfl, restore_gate_blocks_without_mutation ⟨false⟩ "r1" true "" stApi "b1" "d1" rfl⟩

/-! ### Claim C9: `backup_manager.delete_backup` -/

/-- Rows and artifacts visible to `delete_backup`. -/
structure SysState where
  dbs : List Database
  backups : List Backup
  files : List String
deriving Repr, DecidableEq

/-- `backup_manager.delete_backup` (lines 191-215): not-found rows
report failure; when a `storage_path` is set, the storage delete's
Boolean is checked and a `False` return aborts before the row delete
and commit. -/
def delete_backup (delOk : String → Bool) (st : SysState) (backup_id : String) :
    Bool × SysState :=
  match st.backups.find? (fun b => b.id == backup_id) with
  | none => (false, st)
  | some b =>
    match st.dbs.find? (fun d => d.id == b.database_id) with
    | none => (false, st)
    | some _ =>
      match b.storage_path with
      | some p =>
        if (storageDelete delOk st.files p).1 then
          (true, { st with backups := st.backups.filter (fun x => x.id != b.id),
                           files := (storageDelete delOk st.files p).2 })
        else (false, { st with files := (storageDelete delOk st.files p).2 })
      | none => (true, { st with backups := st.backups.filter (fun x => x.id != b.id) })

/-- Claim C9: when the artifact deletion of a Job's stored artifact
reports failure, `delete_backup` fails as a whole: it returns `False`
and leaves the state unchanged — the Job record and the artifact both
remain present. -/
theorem delete_backup_fails_whole_on_storage_failure (delOk : String → Bool)
    (st : SysState) (bid : String) (b : Backup) (d : Database) (p : String)
    (hfind : st.backups.find? (fun x => x.id == bid) = some b)
    (hdb : st.dbs.find? (fun x => x.id == b.database_id) = some d)
    (hsp : b.storage_path = some p)
    (hmem : p ∈ st.files) (hdel : delOk p = false) :
    delete_backup delOk st bid = (false, st)
    ∧ b ∈ (delete_backup delOk st bid).2.backups
    ∧ p ∈ (delete_backup delOk st bid).2.files := by
  have hsd : storageDelete delOk st.files p = (false, st.files) := by
    unfold storageDelete
    rw [if_pos hmem, if_neg (by simp [hdel])]
  have hst : delete_backup delOk st bid = (false, st) := by
    simp only [delete_backup, hfind, hdb, hsp, hsd]
    rfl
  refine ⟨hst, ?_, ?_⟩
  · rw [hst]
    exact List.mem_of_find?_eq_some hfind
  · rw [hst]
    exact hmem

/-- Rows for the `delete_backup` witness: `bOld` belongs to
`dbPgPlain` and its artifact is stored. -/
def stSys : SysState :=
  { dbs := [dbPgPlain], backups := [bOld], files := ["backups/x/f9.sql"] }

/-- Witness for `delete_backup_fails_whole_on_storage_failure` against
the always-failing storage oracle. -/
theorem delete_backup_fails_whole_on_storage_failure_witness :
    stSys.backups.find? (fun x => x.id == "b9") = some bOld
    ∧ stSys.dbs.find? (fun x => x.id == bOld.database_id) = some dbPgPlain
    ∧ bOld.storage_path = some "backups/x/f9.sql"
    ∧ "backups/x/f9.sql" ∈ stSys.files
    ∧ delFail "backups/x/f9.sql" = false
    ∧ (delete_backup delFail stSys "b9" = (false, stSys)
       ∧ bOld ∈ (delete_backup delFail stSys "b9").2.backups
       ∧ "backups/x/f9.sql" ∈ (delete_backup delFail stSys "b9").2.files) :=
  ⟨rfl, rfl, rfl, by decide, rfl,
   delete_backup_fails_whole_on_storage_failure delFail stSys "b9" bOld dbPgPlain
     "backups/x/f9.sql" rfl rfl rfl (by decide) rfl⟩

/-! ### Claim C10: `routers/packages.py` `delete_package` -/

/-- Package rows and artifacts visible to the package endpoints. -/
structure PkgState where
  packages : List Package
  files : List String
deriving Repr, DecidableEq

/-- HTTP-level outcome of `delete_package`. -/
inductive PkgOutcome where
  | noContent
  | storageError
deriving Repr, DecidableEq

/-- `delete_package` (`routers/packages.py` lines 46-66): the whole
body is guarded by `if pkg:`, so an unknown id falls through to the 204
response; the third component records the storage paths on which
`storage.delete` was invoked. -/
def deletePackage (delOk : String → Bool) (st : PkgState) (package_id : String) :
    PkgOutcome × PkgState × List String :=
  match st.packages.find? (fun p => p.id == package_id) with
  | none => (.noContent, st, [])
  | some pkg =>
    if (storageDelete delOk st.files pkg.storage_path).1 then
      (.noContent,
       { packages := st.packages.filter (fun x => x.id != pkg.id),
         files := (storageDelete delOk st.files pkg.storage_path).2 },
       [pkg.storage_path])
    else
      (.storageError,
       { st with files := (storageDelete delOk st.files pkg.storage_path).2 },
       [pkg.storage_path])

/-- Claim C10: deleting a package id that matches no Package record
completes as a silent 204 no-op: no error outcome, no storage delete
invoked, and the state unchanged. -/
theorem delete_unknown_package_silent_noop (delOk : String → Bool)
    (st : PkgState) (pid : String)
    (h : ∀ pkg ∈ st.packages, pkg.id ≠ pid) :
    deletePackage delOk st pid = (.noContent, st, []) := by
  have hf : st.packages.find? (fun p => p.id == pid) = none := by
    rw [List.find?_eq_none]
    intro pkg hm
    simpa using h pkg hm
  simp [deletePackage, hf]

/-- Package rows for the `delete_package` witness. -/
def stPkg : PkgState :=
  { packages := [⟨"pk1", "packages/pk1.zip", 10, 0⟩], files := ["packages/pk1.zip"] }

/-- Witness for `delete_unknown_package_silent_noop` at an id matching
no package. -/
theorem delete_unknown_package_silent_noop_witness :
    (∀ pkg ∈ stPkg.packages, pkg.id ≠ "nope")
    ∧ deletePackage delFail stPkg "nope" = (.noContent, stPkg, []) :=
  ⟨by decide, delete_unknown_package_silent_noop delFail stPkg "nope" (by decide)⟩

end BackupApi
